import Mathlib

/-!
Shallow embedding of `src/scoring/probability_engine.py` from the
`lead_crawler` repository, together with theorems checking the
natural-language specification against it.

Modelling conventions:
* Python `str` values are Lean `String`s; all matching in the engine is
  done on lists of Unicode code points (`Char.toNat`).  Python's
  `str.lower()` is modelled as ASCII case folding (`lowerCode`), which
  agrees with Python on every keyword constant and every string the
  engine compares them against, all of which are ASCII.
* Python `int` is Lean `Int`.  The percentage computations
  `int(weight * 0.6)` etc. are IEEE-double products truncated to int;
  for every weight value occurring in this repository (the constants
  30, 20, 15, 10, 40, which `__init__` hard-codes and nothing can
  override) the double product rounds to the exact integer, so
  `int(w * p) = w * num / den` in truncated natural division.  The
  embedding uses the natural-division form.
* A lead is a Python dict; the engine reads seven string fields
  (`dict.get` with defaults `""` / `"No"`, represented by the field
  value itself: a missing key and its default behave identically in
  every use the engine makes of them) and writes exactly three fields
  (`probability_score`, `rank`, `company_in_hub`).  All other keys are
  carried opaquely in `extra`.
* `list.sort(key=..., reverse=True)` is Python's Timsort: a stable
  sort, here in descending score order.  Any two stable sorts for the
  same order compute the same list, so it is embedded as stable
  insertion sort (`sortLeads`).
-/

namespace LeadCrawler

/-- ASCII case folding on a code point: `A`–`Z` (65–90) map to
`a`–`z`; everything else is unchanged. -/
def lowerCode (n : Nat) : Nat :=
  if 65 ≤ n ∧ n ≤ 90 then n + 32 else n

/-- The code points of a string, unchanged. -/
def strCodes (s : String) : List Nat :=
  s.data.map Char.toNat

/-- The code points of a string after `str.lower()` (ASCII model). -/
def strLower (s : String) : List Nat :=
  s.data.map (fun c => lowerCode c.toNat)

/-- `startsWithCodes needle hay` : `needle` is an initial segment of `hay`. -/
def startsWithCodes : List Nat → List Nat → Bool
  | [], _ => true
  | _ :: _, [] => false
  | a :: as, b :: bs => a == b && startsWithCodes as bs

/-- `containsSeq needle hay` : Python's `needle in hay` on strings
(contiguous subsequence test). -/
def containsSeq (needle : List Nat) : List Nat → Bool
  | [] => needle.isEmpty
  | b :: bs => startsWithCodes needle (b :: bs) || containsSeq needle bs

/-- Python `kw in s.lower()` for one keyword. -/
def kwIn (kw : String) (s : String) : Bool :=
  containsSeq (strCodes kw) (strLower s)

/-- Python `any(kw in s.lower() for kw in kws)`. -/
def anyKwIn (kws : List String) (s : String) : Bool :=
  kws.any (fun kw => kwIn kw s)

/-- Python `s.lower() == t` for an ASCII literal `t`. -/
def lowerEqStr (s t : String) : Bool :=
  strLower s == strCodes t

/-- Code points of ASCII whitespace, as stripped by Python's `int(str)`. -/
def isSpaceCode (n : Nat) : Bool :=
  n == 32 || n == 9 || n == 10 || n == 13 || n == 11 || n == 12

/-- Strip leading and trailing whitespace. -/
def stripCodes (l : List Nat) : List Nat :=
  ((l.dropWhile isSpaceCode).reverse.dropWhile isSpaceCode).reverse

/-- Parse a nonempty run of ASCII digits (most significant first);
`none` if empty or any non-digit appears. -/
def parseDigits : List Nat → Option Nat
  | [] => none
  | l => parseDigitsAux l 0
where
  parseDigitsAux : List Nat → Nat → Option Nat
    | [], acc => some acc
    | c :: cs, acc =>
      if 48 ≤ c ∧ c ≤ 57 then parseDigitsAux cs (acc * 10 + (c - 48))
      else none

/-- Python `int(s)` on a string: strip whitespace, optional sign, then
decimal digits; `none` models the `ValueError` path.  (Python also
accepts underscore digit separators and non-ASCII digits; no input in
this repository uses either.) -/
def pyIntOfStr (s : String) : Option Int :=
  match stripCodes (strCodes s) with
  | 43 :: rest => (parseDigits rest).map (fun n => (n : Int))
  | 45 :: rest => (parseDigits rest).map (fun n => -(n : Int))
  | rest => (parseDigits rest).map (fun n => (n : Int))

/-- The five scoring weights (`self.weights` in `__init__`). -/
structure Weights where
  title_match : Nat
  funding_stage : Nat
  uses_invitro : Nat
  location_hub : Nat
  recent_dili_publication : Nat

/-- The engine state built by `ProbabilityEngine.__init__`. -/
structure ProbabilityEngine where
  current_year : Int
  weights : Weights
  title_keywords : List String
  role_keywords : List String
  hub_locations : List String
  dili_keywords : List String

/-- The weight constants hard-coded in `__init__`. -/
def defaultWeights : Weights :=
  { title_match := 30
    funding_stage := 20
    uses_invitro := 15
    location_hub := 10
    recent_dili_publication := 40 }

/-- `ProbabilityEngine.__init__`.  The Python constructor takes no
parameters: its only external input is the wall-clock year
(`datetime.now().year`), which we pass explicitly; every other field
is a hard-coded constant. -/
def ProbabilityEngine.init (wallClockYear : Int) : ProbabilityEngine :=
  { current_year := wallClockYear
    weights := defaultWeights
    title_keywords :=
      ["director", "vp", "vice president", "head", "chief",
       "senior", "principal", "lead", "manager"]
    role_keywords :=
      ["toxicology", "toxicologist", "safety", "hepatic",
       "preclinical", "liver", "dmpk", "adme"]
    hub_locations :=
      ["boston", "cambridge", "massachusetts",
       "san francisco", "bay area", "palo alto",
       "san diego", "la jolla",
       "basel", "zurich", "switzerland",
       "london", "oxford", "uk",
       "munich", "germany",
       "new jersey", "princeton",
       "maryland", "bethesda"]
    dili_keywords :=
      ["drug-induced liver injury", "drug induced liver injury",
       "dili", "hepatotoxicity", "liver toxicity", "hepatic toxicity",
       "liver injury"] }

/-- `_score_title`. -/
def scoreTitle (e : ProbabilityEngine) (title : String) : Int :=
  if title.isEmpty then 0
  else
    let has_senior_title := anyKwIn e.title_keywords title
    let has_relevant_role := anyKwIn e.role_keywords title
    if has_senior_title && has_relevant_role then (e.weights.title_match : Int)
    else if has_relevant_role then ((e.weights.title_match * 6 / 10 : Nat) : Int)
    else if has_senior_title then ((e.weights.title_match * 3 / 10 : Nat) : Int)
    else 0

/-- `_score_funding`. -/
def scoreFunding (e : ProbabilityEngine) (funding_stage : String) : Int :=
  if funding_stage.isEmpty then 0
  else if anyKwIn ["series a", "series b", "series c"] funding_stage then
    (e.weights.funding_stage : Int)
  else if anyKwIn ["grant", "nih", "funded", "clinical trial"] funding_stage then
    ((e.weights.funding_stage * 8 / 10 : Nat) : Int)
  else if anyKwIn ["seed", "private"] funding_stage then
    ((e.weights.funding_stage * 4 / 10 : Nat) : Int)
  else 0

/-- The technology keyword list local to `_score_technology`. -/
def techKeywords : List String :=
  ["3d", "in vitro", "organ-on-chip", "spheroid", "organoid"]

/-- `_score_technology`. -/
def scoreTechnology (e : ProbabilityEngine) (uses_invitro topic : String) : Int :=
  let score : Int := if lowerEqStr uses_invitro "yes" then (e.weights.uses_invitro : Int) else 0
  if !topic.isEmpty then
    if anyKwIn techKeywords topic then max score (e.weights.uses_invitro : Int)
    else score
  else score

/-- The f-string `f"{person_location} {company_hq}"` used by both
`_score_location` and the hub-marking loop of `score_leads`. -/
def locationText (person_location company_hq : String) : String :=
  person_location ++ " " ++ company_hq

/-- The hub test `any(hub in locations for hub in self.hub_locations)`. -/
def hubMatch (e : ProbabilityEngine) (person_location company_hq : String) : Bool :=
  anyKwIn e.hub_locations (locationText person_location company_hq)

/-- `_score_location`. -/
def scoreLocation (e : ProbabilityEngine) (person_location company_hq : String) : Int :=
  if hubMatch e person_location company_hq then (e.weights.location_hub : Int)
  else 0

/-- The general liver/tox keyword list local to `_score_publication`. -/
def generalLiverKeywords : List String :=
  ["liver", "hepat", "toxicol"]

/-- `int(year) if year else 0`, with `except: pub_year = 0`. -/
def pubYearOf (year : String) : Int :=
  if year.isEmpty then 0 else (pyIntOfStr year).getD 0

/-- `_score_publication`. -/
def scorePublication (e : ProbabilityEngine) (topic year : String) : Int :=
  if topic.isEmpty then 0
  else
    let pub_year := pubYearOf year
    let is_recent : Bool := e.current_year - 2 ≤ pub_year
    let has_dili := anyKwIn e.dili_keywords topic
    if is_recent && has_dili then (e.weights.recent_dili_publication : Int)
    else
      let has_liver := anyKwIn generalLiverKeywords topic
      if is_recent && has_liver then ((e.weights.recent_dili_publication * 5 / 10 : Nat) : Int)
      else if has_dili || has_liver then ((e.weights.recent_dili_publication * 25 / 100 : Nat) : Int)
      else 0

/-- A lead record.  The seven fields read by the engine and the three
fields it writes are explicit; every other dict entry is carried in
`extra` untouched. -/
structure Lead where
  title : String
  funding_stage : String
  uses_invitro : String
  publication_topic : String
  publication_year : String
  person_location : String
  company_hq : String
  probability_score : Int
  rank : Nat
  company_in_hub : String
  extra : List (String × String)

/-- The part of a lead that `score_leads` never writes. -/
structure LeadBase where
  title : String
  funding_stage : String
  uses_invitro : String
  publication_topic : String
  publication_year : String
  person_location : String
  company_hq : String
  extra : List (String × String)

/-- Projection onto the never-written fields. -/
def Lead.base (l : Lead) : LeadBase :=
  { title := l.title
    funding_stage := l.funding_stage
    uses_invitro := l.uses_invitro
    publication_topic := l.publication_topic
    publication_year := l.publication_year
    person_location := l.person_location
    company_hq := l.company_hq
    extra := l.extra }

/-- `calculate_score`: sum of the five component scores, capped at 100. -/
def calculate_score (e : ProbabilityEngine) (l : Lead) : Int :=
  min
    (scoreTitle e l.title
      + scoreFunding e l.funding_stage
      + scoreTechnology e l.uses_invitro l.publication_topic
      + scoreLocation e l.person_location l.company_hq
      + scorePublication e l.publication_topic l.publication_year)
    100

/-- The first loop of `score_leads`:
`lead["probability_score"] = self.calculate_score(lead)`. -/
def setScore (e : ProbabilityEngine) (l : Lead) : Lead :=
  { l with probability_score := calculate_score e l }

/-- Stable insertion into a list sorted by descending
`probability_score`: the new element goes after every strictly greater
element and before every element ≤ it, exactly where Python's stable
`list.sort(key=..., reverse=True)` keeps it. -/
def insertLead (x : Lead) : List Lead → List Lead
  | [] => [x]
  | y :: ys =>
    if x.probability_score < y.probability_score then y :: insertLead x ys
    else x :: y :: ys

/-- Stable sort by descending `probability_score`
(`leads.sort(key=lambda x: x["probability_score"], reverse=True)`). -/
def sortLeads : List Lead → List Lead
  | [] => []
  | x :: xs => insertLead x (sortLeads xs)

/-- The rank loop `for i, lead in enumerate(leads, 1): lead["rank"] = i`. -/
def assignRanks : Nat → List Lead → List Lead
  | _, [] => []
  | i, l :: ls => { l with rank := i } :: assignRanks (i + 1) ls

/-- The hub-marking loop of `score_leads`. -/
def markHub (e : ProbabilityEngine) (l : Lead) : Lead :=
  { l with company_in_hub :=
      if hubMatch e l.person_location l.company_hq then "TRUE" else "FALSE" }

/-- `score_leads`: score every lead, stable-sort by descending score,
assign ranks 1..N in output order, mark hub membership for every lead,
and return the (reordered, annotated) batch. -/
def score_leads (e : ProbabilityEngine) (leads : List Lead) : List Lead :=
  (assignRanks 1 (sortLeads (leads.map (setScore e)))).map (markHub e)

/-- The guarded statistics step of `score_leads`: the average is
computed only under `if scores:`; on an empty batch it is never
computed (`none`). -/
def averageScore (leads : List Lead) : Option ℚ :=
  let scores := leads.map (·.probability_score)
  if scores.isEmpty then none
  else some ((scores.sum : ℚ) / (scores.length : ℚ))

/-! ### Specification-side definitions

The following definitions are written from the wording of `spec.md`
(literal point values and keyword sets rather than the engine's
weight-map arithmetic), to be compared with the source-side
definitions above. -/

/-- Spec §4a: the seniority keyword set. -/
def specSeniorityKeywords : List String :=
  ["director", "vp", "vice president", "head", "chief",
   "senior", "principal", "lead", "manager"]

/-- Spec §4a: the domain-relevance keyword set. -/
def specRelevanceKeywords : List String :=
  ["toxicology", "toxicologist", "safety", "hepatic",
   "preclinical", "liver", "dmpk", "adme"]

/-- Spec §4a: title policy with the literal values 30 / 18 / 9 / 0. -/
def specTitleScore (title : String) : Int :=
  if title.isEmpty then 0
  else
    let senior := anyKwIn specSeniorityKeywords title
    let relevant := anyKwIn specRelevanceKeywords title
    if senior && relevant then 30
    else if relevant then 18
    else if senior then 9
    else 0

/-- Spec §4b: the three funding tiers in priority order, values
20 / 16 / 8 / 0, first match wins. -/
def specFundingScore (funding_stage : String) : Int :=
  if anyKwIn ["series a", "series b", "series c"] funding_stage then 20
  else if anyKwIn ["grant", "nih", "funded", "clinical trial"] funding_stage then 16
  else if anyKwIn ["seed", "private"] funding_stage then 8
  else 0

/-- Spec §4c: technology is the maximum of the `uses_invitro == "yes"`
check and the topic-keyword check, each worth the full 15. -/
def specTechnologyScore (uses_invitro topic : String) : Int :=
  max (if lowerEqStr uses_invitro "yes" then 15 else 0)
      (if anyKwIn ["3d", "in vitro", "organ-on-chip", "spheroid", "organoid"] topic
       then 15 else 0)

/-- Spec §4d: the fixed hub strings. -/
def specHubStrings : List String :=
  ["boston", "cambridge", "massachusetts",
   "san francisco", "bay area", "palo alto",
   "san diego", "la jolla",
   "basel", "zurich", "switzerland",
   "london", "oxford", "uk",
   "munich", "germany",
   "new jersey", "princeton",
   "maryland", "bethesda"]

/-- Spec §4d: the hub test on the lowercased space-joined pair. -/
def specInHub (person_location company_hq : String) : Bool :=
  anyKwIn specHubStrings (person_location ++ " " ++ company_hq)

/-- Spec §4d: location component, 10 on a hub match, else 0. -/
def specLocationScore (person_location company_hq : String) : Int :=
  if specInHub person_location company_hq then 10 else 0

/-- Spec §4e: the DILI-specific keyword set. -/
def specDiliKeywords : List String :=
  ["drug-induced liver injury", "drug induced liver injury",
   "dili", "hepatotoxicity", "liver toxicity", "hepatic toxicity",
   "liver injury"]

/-- Spec §4e: the general liver/tox keyword set. -/
def specGeneralLiverKeywords : List String :=
  ["liver", "hepat", "toxicol"]

/-- Spec §4e: publication policy with literal values 40 / 20 / 10 / 0,
evaluated top-down; parse failure or blank year means year 0. -/
def specPublicationScore (current_year : Int) (topic year : String) : Int :=
  if topic.isEmpty then 0
  else
    let recent : Bool := current_year - 2 ≤ (pyIntOfStr year).getD 0
    let dili := anyKwIn specDiliKeywords topic
    let general := anyKwIn specGeneralLiverKeywords topic
    if recent && dili then 40
    else if recent && general then 20
    else if dili || general then 10
    else 0

/-! ### Concrete leads

The first two are the test records from the `__main__` block of
`probability_engine.py`; the third is the Austin record of the spec's
hub scenario. -/

/-- Test lead 1 from the source's `__main__` block. -/
def drSmithLead : Lead :=
  { title := "Director of Toxicology"
    funding_stage := "Series B"
    uses_invitro := "Yes"
    publication_topic := "Drug-Induced Liver Injury Models"
    publication_year := "2024"
    person_location := "Boston"
    company_hq := "Cambridge, MA"
    probability_score := 0
    rank := 0
    company_in_hub := ""
    extra := [("name", "Dr. John Smith"), ("company", "ABC Biotech")] }

/-- Test lead 2 from the source's `__main__` block. -/
def janeDoeLead : Lead :=
  { title := "Junior Scientist"
    funding_stage := "Seed"
    uses_invitro := "No"
    publication_topic := "Cell Culture Methods"
    publication_year := "2021"
    person_location := "Texas"
    company_hq := "Austin"
    probability_score := 0
    rank := 0
    company_in_hub := ""
    extra := [("name", "Jane Doe"), ("company", "StartupX")] }

/-- The Austin lead of the spec's hub scenario. -/
def austinLead : Lead :=
  { janeDoeLead with person_location := "Austin", company_hq := "Austin, TX" }

/-- Descending order on `probability_score`. -/
def SortedDesc (l : List Lead) : Prop :=
  l.Pairwise (fun a b => b.probability_score ≤ a.probability_score)

/-! ### Helper lemmas -/

@[simp] theorem init_current_year (y : Int) :
    (ProbabilityEngine.init y).current_year = y := rfl

@[simp] theorem init_weights (y : Int) :
    (ProbabilityEngine.init y).weights = defaultWeights := rfl

@[simp] theorem init_title_keywords (y : Int) :
    (ProbabilityEngine.init y).title_keywords = specSeniorityKeywords := rfl

@[simp] theorem init_role_keywords (y : Int) :
    (ProbabilityEngine.init y).role_keywords = specRelevanceKeywords := rfl

@[simp] theorem init_hub_locations (y : Int) :
    (ProbabilityEngine.init y).hub_locations = specHubStrings := rfl

@[simp] theorem init_dili_keywords (y : Int) :
    (ProbabilityEngine.init y).dili_keywords = specDiliKeywords := rfl

@[simp] theorem defaultWeights_title : defaultWeights.title_match = 30 := rfl

@[simp] theorem defaultWeights_funding : defaultWeights.funding_stage = 20 := rfl

@[simp] theorem defaultWeights_invitro : defaultWeights.uses_invitro = 15 := rfl

@[simp] theorem defaultWeights_location : defaultWeights.location_hub = 10 := rfl

@[simp] theorem defaultWeights_publication :
    defaultWeights.recent_dili_publication = 40 := rfl

@[simp] theorem base_withRank (l : Lead) (k : Nat) :
    ({ l with rank := k } : Lead).base = l.base := rfl

@[simp] theorem score_withRank (l : Lead) (k : Nat) :
    ({ l with rank := k } : Lead).probability_score = l.probability_score := rfl

@[simp] theorem base_markHub (e : ProbabilityEngine) (l : Lead) :
    (markHub e l).base = l.base := rfl

@[simp] theorem score_markHub (e : ProbabilityEngine) (l : Lead) :
    (markHub e l).probability_score = l.probability_score := rfl

@[simp] theorem rank_markHub (e : ProbabilityEngine) (l : Lead) :
    (markHub e l).rank = l.rank := rfl

@[simp] theorem base_setScore (e : ProbabilityEngine) (l : Lead) :
    (setScore e l).base = l.base := rfl

/-- Inserting a lead produces a permutation of consing it. -/
theorem insertLead_perm (x : Lead) (l : List Lead) :
    (insertLead x l).Perm (x :: l) := by
  induction l with
  | nil => simp [insertLead]
  | cons y ys ih =>
    by_cases h : x.probability_score < y.probability_score
    · simp only [insertLead, if_pos h]
      exact (ih.cons y).trans (List.Perm.swap x y ys)
    · simp [insertLead, if_neg h]

/-- The sort permutes the list. -/
theorem sortLeads_perm (l : List Lead) : (sortLeads l).Perm l := by
  induction l with
  | nil => simp [sortLeads]
  | cons x xs ih => exact (insertLead_perm x (sortLeads xs)).trans (ih.cons x)

/-- Insertion preserves descending order. -/
theorem insertLead_sorted (x : Lead) {l : List Lead} (h : SortedDesc l) :
    SortedDesc (insertLead x l) := by
  induction l with
  | nil => simp [insertLead, SortedDesc]
  | cons y ys ih =>
    rw [SortedDesc, List.pairwise_cons] at h
    by_cases hxy : x.probability_score < y.probability_score
    · simp only [insertLead, if_pos hxy]
      rw [SortedDesc, List.pairwise_cons]
      refine ⟨fun z hz => ?_, ih h.2⟩
      rcases List.mem_cons.1 ((insertLead_perm x ys).mem_iff.1 hz) with hzx | hzys
      · exact hzx ▸ le_of_lt hxy
      · exact h.1 z hzys
    · simp only [insertLead, if_neg hxy]
      rw [SortedDesc, List.pairwise_cons]
      refine ⟨fun z hz => ?_, List.pairwise_cons.2 h⟩
      rcases List.mem_cons.1 hz with hzy | hzys
      · exact hzy ▸ le_of_not_lt hxy
      · exact le_trans (h.1 z hzys) (le_of_not_lt hxy)

/-- The sort output is in descending order. -/
theorem sortLeads_sorted (l : List Lead) : SortedDesc (sortLeads l) := by
  induction l with
  | nil => simp [sortLeads, SortedDesc]
  | cons x xs ih => exact insertLead_sorted x ih

/-- Inserting a lead whose score is not `s` does not disturb the
score-`s` records. -/
theorem filter_insertLead_of_ne (x : Lead) (l : List Lead) (s : Int)
    (hx : x.probability_score ≠ s) :
    (insertLead x l).filter (fun t => t.probability_score == s)
      = l.filter (fun t => t.probability_score == s) := by
  induction l with
  | nil => simp [insertLead, List.filter_cons, hx]
  | cons y ys ih =>
    by_cases hxy : x.probability_score < y.probability_score
    · simp only [insertLead, if_pos hxy, List.filter_cons, ih]
    · simp only [insertLead, if_neg hxy, List.filter_cons]
      simp [hx]

/-- Inserting a lead of score `s` into a descending-sorted list puts
it in front of every existing score-`s` record. -/
theorem filter_insertLead_of_eq (x : Lead) {l : List Lead} (s : Int)
    (hl : SortedDesc l) (hx : x.probability_score = s) :
    (insertLead x l).filter (fun t => t.probability_score == s)
      = x :: l.filter (fun t => t.probability_score == s) := by
  induction l with
  | nil => simp [insertLead, List.filter_cons, hx]
  | cons y ys ih =>
    rw [SortedDesc, List.pairwise_cons] at hl
    by_cases hxy : x.probability_score < y.probability_score
    · have hy : y.probability_score ≠ s := by
        rw [← hx]; exact (ne_of_lt hxy).symm
      simp only [insertLead, if_pos hxy, List.filter_cons]
      simp [hy, ih hl.2]
    · simp only [insertLead, if_neg hxy, List.filter_cons]
      simp [hx]

/-- Stability of the sort: for every score value `s`, the score-`s`
records appear in the output in their input order. -/
theorem sortLeads_filter (l : List Lead) (s : Int) :
    (sortLeads l).filter (fun t => t.probability_score == s)
      = l.filter (fun t => t.probability_score == s) := by
  induction l with
  | nil => rfl
  | cons x xs ih =>
    show (insertLead x (sortLeads xs)).filter _ = _
    by_cases hx : x.probability_score = s
    · rw [filter_insertLead_of_eq x s (sortLeads_sorted xs) hx, ih, List.filter_cons]
      simp [hx]
    · rw [filter_insertLead_of_ne x _ s hx, ih, List.filter_cons]
      simp [hx]

/-- `assignRanks` keeps the length. -/
theorem assignRanks_length (k : Nat) (l : List Lead) :
    (assignRanks k l).length = l.length := by
  induction l generalizing k with
  | nil => rfl
  | cons x xs ih => simp [assignRanks, ih]

/-- The ranks written by `assignRanks k` are `k, k+1, ...` in order. -/
theorem assignRanks_map_rank (k : Nat) (l : List Lead) :
    (assignRanks k l).map (fun t => t.rank) = List.range' k l.length := by
  induction l generalizing k with
  | nil => rfl
  | cons x xs ih => simp [assignRanks, List.range'_succ, ih]

/-- `assignRanks` does not change any score. -/
theorem assignRanks_map_score (k : Nat) (l : List Lead) :
    (assignRanks k l).map (fun t => t.probability_score)
      = l.map (fun t => t.probability_score) := by
  induction l generalizing k with
  | nil => rfl
  | cons x xs ih => simp [assignRanks, ih]

/-- `assignRanks` does not change any never-written field. -/
theorem assignRanks_map_base (k : Nat) (l : List Lead) :
    (assignRanks k l).map Lead.base = l.map Lead.base := by
  induction l generalizing k with
  | nil => rfl
  | cons x xs ih => simp [assignRanks, ih]

/-- The rank at position `i` of `assignRanks k l` is `k + i`. -/
theorem assignRanks_rank_get (l : List Lead) (k i : Nat)
    (hi : i < (assignRanks k l).length) :
    ((assignRanks k l).get ⟨i, hi⟩).rank = k + i := by
  induction l generalizing k i with
  | nil => simp [assignRanks] at hi
  | cons x xs ih =>
    cases i with
    | zero => simp [assignRanks]
    | succ j =>
      have hj : j < (assignRanks (k + 1) xs).length := by
        simpa [assignRanks] using hi
      have : ((assignRanks k (x :: xs)).get ⟨j + 1, hi⟩)
          = ((assignRanks (k + 1) xs).get ⟨j, hj⟩) := rfl
      rw [this, ih (k + 1) j hj]
      omega

/-- The score at position `i` of `assignRanks k l` is that of `l` at `i`. -/
theorem assignRanks_score_get (l : List Lead) (k i : Nat)
    (hi : i < (assignRanks k l).length)
    (hi' : i < l.length) :
    ((assignRanks k l).get ⟨i, hi⟩).probability_score
      = (l.get ⟨i, hi'⟩).probability_score := by
  induction l generalizing k i with
  | nil => simp [assignRanks] at hi
  | cons x xs ih =>
    cases i with
    | zero => simp [assignRanks]
    | succ j =>
      have hj : j < (assignRanks (k + 1) xs).length := by
        simpa [assignRanks] using hi
      have hj' : j < xs.length := by simpa using hi'
      have : ((assignRanks k (x :: xs)).get ⟨j + 1, hi⟩)
          = ((assignRanks (k + 1) xs).get ⟨j, hj⟩) := rfl
      rw [this, ih (k + 1) j hj hj']
      rfl

/-- Filtering on score passes through `assignRanks` up to the
never-written fields. -/
theorem assignRanks_filter_base (k : Nat) (l : List Lead) (s : Int) :
    (((assignRanks k l).filter (fun t => t.probability_score == s)).map Lead.base)
      = ((l.filter (fun t => t.probability_score == s)).map Lead.base) := by
  induction l generalizing k with
  | nil => rfl
  | cons x xs ih =>
    simp only [assignRanks, List.filter_cons, score_withRank]
    cases hp : (x.probability_score == s) with
    | false => simp [ih]
    | true => simp [ih]

/-- Filtering on score commutes with the hub-marking map. -/
theorem markHub_filter (e : ProbabilityEngine) (l : List Lead) (s : Int) :
    (l.map (markHub e)).filter (fun t => t.probability_score == s)
      = (l.filter (fun t => t.probability_score == s)).map (markHub e) := by
  induction l with
  | nil => rfl
  | cons x xs ih =>
    simp only [List.map_cons, List.filter_cons, score_markHub]
    rw [ih]
    split <;> simp

@[simp] theorem person_markHub (e : ProbabilityEngine) (l : Lead) :
    (markHub e l).person_location = l.person_location := rfl

@[simp] theorem companyHq_markHub (e : ProbabilityEngine) (l : Lead) :
    (markHub e l).company_hq = l.company_hq := rfl

theorem hubFlag_markHub (e : ProbabilityEngine) (l : Lead) :
    (markHub e l).company_in_hub
      = if hubMatch e l.person_location l.company_hq then "TRUE" else "FALSE" := rfl

/-- The engine's hub test coincides with the spec's hub test. -/
theorem hubMatch_init (y : Int) (person_location company_hq : String) :
    hubMatch (ProbabilityEngine.init y) person_location company_hq
      = specInHub person_location company_hq := rfl

/-- Blank or unparsable years collapse to 0 through `getD`. -/
theorem pubYearOf_eq (year : String) :
    pubYearOf year = (pyIntOfStr year).getD 0 := by
  by_cases h : year.isEmpty
  · rw [show year = "" from (String.isEmpty_iff year).mp h]
    rfl
  · simp [pubYearOf, h]

/-- The title component agrees with the spec policy (30 / 18 / 9 / 0):
the two if-trees coincide definitionally, the keyword lists being the
same and `30*6/10`, `30*3/10` reducing to the literals 18 and 9. -/
theorem scoreTitle_eq_spec (y : Int) (title : String) :
    scoreTitle (ProbabilityEngine.init y) title = specTitleScore title := by
  unfold scoreTitle specTitleScore
  simp only [init_title_keywords, init_role_keywords, init_weights, defaultWeights_title]
  rfl

/-- The funding component agrees with the spec tiers (20 / 16 / 8 / 0). -/
theorem scoreFunding_eq_spec (y : Int) (funding_stage : String) :
    scoreFunding (ProbabilityEngine.init y) funding_stage
      = specFundingScore funding_stage := by
  by_cases h : funding_stage.isEmpty
  · rw [show funding_stage = "" from (String.isEmpty_iff funding_stage).mp h]
    rfl
  · unfold scoreFunding
    rw [if_neg h]
    simp only [init_weights, defaultWeights_funding]
    rfl

/-- The technology component agrees with the spec's max-of-two-checks. -/
theorem scoreTechnology_eq_spec (y : Int) (uses_invitro topic : String) :
    scoreTechnology (ProbabilityEngine.init y) uses_invitro topic
      = specTechnologyScore uses_invitro topic := by
  unfold scoreTechnology specTechnologyScore
  rw [show anyKwIn techKeywords topic
      = anyKwIn ["3d", "in vitro", "organ-on-chip", "spheroid", "organoid"] topic from rfl]
  by_cases h : topic.isEmpty
  · rw [show topic = "" from (String.isEmpty_iff topic).mp h]
    cases hu : lowerEqStr uses_invitro "yes" <;>
      simp only [hu, init_weights, defaultWeights_invitro] <;> rfl
  · have h2 : topic.isEmpty = false := Bool.eq_false_iff.mpr h
    cases hu : lowerEqStr uses_invitro "yes" <;>
      cases hk : anyKwIn ["3d", "in vitro", "organ-on-chip", "spheroid", "organoid"] topic <;>
        simp only [hu, hk, h2, init_weights, defaultWeights_invitro] <;> rfl

/-- The location component agrees with the spec's hub rule. -/
theorem scoreLocation_eq_spec (y : Int) (person_location company_hq : String) :
    scoreLocation (ProbabilityEngine.init y) person_location company_hq
      = specLocationScore person_location company_hq := rfl

/-- The publication component agrees with the spec's top-down policy
(40 / 20 / 10 / 0). -/
theorem scorePublication_eq_spec (y : Int) (topic year : String) :
    scorePublication (ProbabilityEngine.init y) topic year
      = specPublicationScore y topic year := by
  unfold scorePublication specPublicationScore
  by_cases h : topic.isEmpty
  · rw [if_pos h, if_pos h]
  · rw [if_neg h, if_neg h, pubYearOf_eq]
    simp only [init_current_year, init_dili_keywords, init_weights,
      defaultWeights_publication,
      show generalLiverKeywords = specGeneralLiverKeywords from rfl]
    rfl

/-- Every branch of `_score_title` is a natural number. -/
theorem scoreTitle_nonneg (e : ProbabilityEngine) (title : String) :
    0 ≤ scoreTitle e title := by
  simp only [scoreTitle]
  split_ifs <;> positivity

/-- Every branch of `_score_funding` is a natural number. -/
theorem scoreFunding_nonneg (e : ProbabilityEngine) (funding_stage : String) :
    0 ≤ scoreFunding e funding_stage := by
  simp only [scoreFunding]
  split_ifs <;> positivity

/-- Every branch of `_score_technology` is a natural number. -/
theorem scoreTechnology_nonneg (e : ProbabilityEngine) (uses_invitro topic : String) :
    0 ≤ scoreTechnology e uses_invitro topic := by
  simp only [scoreTechnology]
  split_ifs <;> positivity

/-- Every branch of `_score_location` is a natural number. -/
theorem scoreLocation_nonneg (e : ProbabilityEngine) (person_location company_hq : String) :
    0 ≤ scoreLocation e person_location company_hq := by
  simp only [scoreLocation]
  split_ifs <;> positivity

/-- Every branch of `_score_publication` is a natural number. -/
theorem scorePublication_nonneg (e : ProbabilityEngine) (topic year : String) :
    0 ≤ scorePublication e topic year := by
  simp only [scorePublication]
  split_ifs <;> positivity

/-- The sum of the five components is non-negative. -/
theorem componentSum_nonneg (e : ProbabilityEngine) (l : Lead) :
    0 ≤ scoreTitle e l.title
        + scoreFunding e l.funding_stage
        + scoreTechnology e l.uses_invitro l.publication_topic
        + scoreLocation e l.person_location l.company_hq
        + scorePublication e l.publication_topic l.publication_year := by
  have h1 := scoreTitle_nonneg e l.title
  have h2 := scoreFunding_nonneg e l.funding_stage
  have h3 := scoreTechnology_nonneg e l.uses_invitro l.publication_topic
  have h4 := scoreLocation_nonneg e l.person_location l.company_hq
  have h5 := scorePublication_nonneg e l.publication_topic l.publication_year
  omega

/-! ### Claim theorems -/

/-- C1: for every engine and every lead, each of the five component
scores is non-negative, `calculate_score` lies in `[0, 100]` because
the non-negative component sum is clamped with `min (·) 100` (so no
floor clamp is needed); and the `__main__` test lead, which meets full
criteria on all five components (weights 30+20+15+10+40 = 115 > 100,
in particular on at least three components whose weights sum above
100), scores exactly 100. -/
theorem C1_probability_score_bounds :
    (∀ (e : ProbabilityEngine) (l : Lead),
        0 ≤ scoreTitle e l.title
        ∧ 0 ≤ scoreFunding e l.funding_stage
        ∧ 0 ≤ scoreTechnology e l.uses_invitro l.publication_topic
        ∧ 0 ≤ scoreLocation e l.person_location l.company_hq
        ∧ 0 ≤ scorePublication e l.publication_topic l.publication_year
        ∧ 0 ≤ calculate_score e l
        ∧ calculate_score e l ≤ 100)
    ∧ (scoreTitle (ProbabilityEngine.init 2025) drSmithLead.title = 30
       ∧ scoreFunding (ProbabilityEngine.init 2025) drSmithLead.funding_stage = 20
       ∧ scoreTechnology (ProbabilityEngine.init 2025) drSmithLead.uses_invitro
           drSmithLead.publication_topic = 15
       ∧ scoreLocation (ProbabilityEngine.init 2025) drSmithLead.person_location
           drSmithLead.company_hq = 10
       ∧ scorePublication (ProbabilityEngine.init 2025) drSmithLead.publication_topic
           drSmithLead.publication_year = 40
       ∧ calculate_score (ProbabilityEngine.init 2025) drSmithLead = 100) := by
  constructor
  · intro e l
    refine ⟨scoreTitle_nonneg e l.title, scoreFunding_nonneg e _,
      scoreTechnology_nonneg e _ _, scoreLocation_nonneg e _ _,
      scorePublication_nonneg e _ _, ?_, ?_⟩
    · exact le_min (componentSum_nonneg e l) (by norm_num)
    · exact min_le_right _ _
  · exact ⟨by decide, by decide, by decide, by decide, by decide, by decide⟩

/-- C8 counterexample: the configuration cannot be supplied at
construction.  `__init__` takes no parameters; its only external input
is the wall-clock year, and two constructions at arbitrarily different
wall-clock instants still carry bit-identical weights and keyword
lists — the hard-coded constants. -/
theorem C8_config_not_overridable_counterexample :
    (ProbabilityEngine.init 1900).weights = (ProbabilityEngine.init 2100).weights
    ∧ (ProbabilityEngine.init 1900).title_keywords
        = (ProbabilityEngine.init 2100).title_keywords
    ∧ (ProbabilityEngine.init 1900).role_keywords
        = (ProbabilityEngine.init 2100).role_keywords
    ∧ (ProbabilityEngine.init 1900).hub_locations
        = (ProbabilityEngine.init 2100).hub_locations
    ∧ (ProbabilityEngine.init 1900).dili_keywords
        = (ProbabilityEngine.init 2100).dili_keywords
    ∧ (ProbabilityEngine.init 2025).weights = defaultWeights :=
  ⟨rfl, rfl, rfl, rfl, rfl, rfl⟩

/-- C8 (amended): nothing in the engine's configuration is
caller-overridable.  `__init__` accepts no arguments; every
construction yields the hard-coded weights and keyword lists, and
`current_year` is always the wall-clock year taken at construction
(the constructor's only external input), so a caller cannot inject a
fixed year. -/
theorem C8_config_hardcoded (wallClockYear : Int) :
    ProbabilityEngine.init wallClockYear
        = { ProbabilityEngine.init 2025 with current_year := wallClockYear }
    ∧ (ProbabilityEngine.init wallClockYear).current_year = wallClockYear
    ∧ (ProbabilityEngine.init wallClockYear).weights = defaultWeights :=
  ⟨rfl, rfl, rfl⟩

/-- Element of a mapped list at a position. -/
theorem get_of_map {α β : Type} (f : α → β) (l : List α) (i : Nat)
    (hi : i < (l.map f).length) (hi' : i < l.length) :
    (l.map f).get ⟨i, hi⟩ = f (l.get ⟨i, hi'⟩) := by
  simp [List.get_eq_getElem, List.getElem_map]

/-- C3: for every engine construction year and every lead, the
publication component follows the spec's top-down policy
(recent + DILI → 40; recent + general → 20; DILI or general without
recency → 10; else 0; empty topic → 0), where the year is parsed as a
Python `int` and a blank or non-numeric `publication_year` collapses
to year 0; with `current_year` fixed at 2025, year "2024" with topic
"Drug-Induced Liver Injury Models" yields exactly 40. -/
theorem C3_publication_policy :
    (∀ (y : Int) (topic year : String),
        scorePublication (ProbabilityEngine.init y) topic year
          = specPublicationScore y topic year)
    ∧ (∀ year : String, pubYearOf year = (pyIntOfStr year).getD 0)
    ∧ pubYearOf "" = 0
    ∧ pubYearOf "n/a" = 0
    ∧ scorePublication (ProbabilityEngine.init 2025)
        "Drug-Induced Liver Injury Models" "2024" = 40
    ∧ scorePublication (ProbabilityEngine.init 2025) "" "2024" = 0 :=
  ⟨scorePublication_eq_spec, pubYearOf_eq, rfl, by decide, by decide, rfl⟩

/-- C4: for every engine construction year and every title, the title
component classifies by case-insensitive substring match against the
seniority and relevance keyword sets and returns 30 / 18 / 9 / 0
(0 on an empty title), where 18 and 9 are the integer truncations of
`30*0.6` and `30*0.3`; "Director of Toxicology" yields 30. -/
theorem C4_title_policy :
    (∀ (y : Int) (title : String),
        scoreTitle (ProbabilityEngine.init y) title = specTitleScore title)
    ∧ defaultWeights.title_match * 6 / 10 = 18
    ∧ defaultWeights.title_match * 3 / 10 = 9
    ∧ scoreTitle (ProbabilityEngine.init 2025) "Director of Toxicology" = 30 :=
  ⟨scoreTitle_eq_spec, rfl, rfl, by decide⟩

/-- C5: for every engine construction year and every funding stage,
the funding component checks three tiers in priority order with the
first match winning: series a/b/c → 20, grant/nih/funded/clinical
trial → 16, seed/private → 8, else 0; "Series B" yields 20 and
"NIH Grant" yields 16 (grant tier only, no stacking). -/
theorem C5_funding_tiers :
    (∀ (y : Int) (funding_stage : String),
        scoreFunding (ProbabilityEngine.init y) funding_stage
          = specFundingScore funding_stage)
    ∧ defaultWeights.funding_stage * 8 / 10 = 16
    ∧ defaultWeights.funding_stage * 4 / 10 = 8
    ∧ scoreFunding (ProbabilityEngine.init 2025) "Series B" = 20
    ∧ scoreFunding (ProbabilityEngine.init 2025) "NIH Grant" = 16 :=
  ⟨scoreFunding_eq_spec, rfl, rfl, by decide, by decide⟩

/-- C6: for every engine construction year, the technology component
is the maximum — not the sum — of the `uses_invitro == "yes"` check
and the topic-keyword check, each worth the full 15; a lead whose
`uses_invitro` is "Liver Focus" (or "No") gets nothing from the field
check but still receives 15 when its topic holds a technology
keyword, and 0 when it does not. -/
theorem C6_technology_max :
    (∀ (y : Int) (uses_invitro topic : String),
        scoreTechnology (ProbabilityEngine.init y) uses_invitro topic
          = specTechnologyScore uses_invitro topic)
    ∧ scoreTechnology (ProbabilityEngine.init 2025) "Liver Focus" "3D spheroid models" = 15
    ∧ scoreTechnology (ProbabilityEngine.init 2025) "No" "Organ-on-chip platform" = 15
    ∧ scoreTechnology (ProbabilityEngine.init 2025) "Yes" "Cell imaging" = 15
    ∧ scoreTechnology (ProbabilityEngine.init 2025) "Liver Focus" "Cell imaging" = 0 :=
  ⟨scoreTechnology_eq_spec, by decide, by decide, by decide, by decide⟩

/-- C7: for every engine construction year, the location component is
10 exactly when the lowercased space-joined pair of `person_location`
and `company_hq` contains a hub string, else 0; `score_leads` writes
`company_in_hub` as the literal "TRUE"/"FALSE" for every output lead
using the identical check; Boston/Cambridge gives 10 and "TRUE",
Austin gives 0 and "FALSE". -/
theorem C7_location_and_hub_flag :
    (∀ (y : Int) (person_location company_hq : String),
        scoreLocation (ProbabilityEngine.init y) person_location company_hq
          = specLocationScore person_location company_hq)
    ∧ (∀ (y : Int) (leads : List Lead) (l : Lead),
        l ∈ score_leads (ProbabilityEngine.init y) leads →
          l.company_in_hub
            = if specInHub l.person_location l.company_hq then "TRUE" else "FALSE")
    ∧ scoreLocation (ProbabilityEngine.init 2025) "Boston" "Cambridge, MA" = 10
    ∧ scoreLocation (ProbabilityEngine.init 2025) "Austin" "Austin, TX" = 0
    ∧ (score_leads (ProbabilityEngine.init 2025) [drSmithLead]).map
        (fun l => l.company_in_hub) = ["TRUE"]
    ∧ (score_leads (ProbabilityEngine.init 2025) [austinLead]).map
        (fun l => l.company_in_hub) = ["FALSE"] := by
  refine ⟨scoreLocation_eq_spec, ?_, by decide, by decide, by decide, by decide⟩
  intro y leads l hl
  rcases List.mem_map.1 hl with ⟨l', _hl', rfl⟩
  rw [hubFlag_markHub, hubMatch_init, person_markHub, companyHq_markHub]

/-- C7 witness: the hub-flag rule applied to the concrete Austin lead
inside a scored batch. -/
theorem C7_hub_flag_witness :
    ((score_leads (ProbabilityEngine.init 2025) [austinLead]).get
        ⟨0, by decide⟩).company_in_hub = "FALSE" := by
  have h := C7_location_and_hub_flag.2.1 2025 [austinLead]
    ((score_leads (ProbabilityEngine.init 2025) [austinLead]).get ⟨0, by decide⟩)
    (List.get_mem _ _ _)
  rw [h]
  decide

/-- C10: scoring an empty batch returns the empty batch, and the
aggregate-statistics average is guarded by the emptiness check, so the
division by the number of scores is never performed. -/
theorem C10_empty_batch :
    (∀ e : ProbabilityEngine, score_leads e [] = []) ∧ averageScore [] = none :=
  ⟨fun _ => rfl, rfl⟩

/-- C2: for every batch, the output ranks are exactly 1..N in output
order with no gaps or duplicates; a lower rank never has a lower
score (the output is sorted by descending score); and for every score
value the records carrying it keep their input relative order — the
sort is stable. -/
theorem C2_rank_sort_stability (e : ProbabilityEngine) (leads : List Lead) :
    ((score_leads e leads).map (fun l => l.rank) = List.range' 1 leads.length)
    ∧ (∀ (i j : Nat) (hi : i < (score_leads e leads).length)
          (hj : j < (score_leads e leads).length),
        ((score_leads e leads).get ⟨i, hi⟩).rank
            < ((score_leads e leads).get ⟨j, hj⟩).rank →
          ((score_leads e leads).get ⟨j, hj⟩).probability_score
            ≤ ((score_leads e leads).get ⟨i, hi⟩).probability_score)
    ∧ (∀ s : Int,
        (((score_leads e leads).filter (fun l => l.probability_score == s)).map Lead.base)
          = (((leads.map (setScore e)).filter
                (fun l => l.probability_score == s)).map Lead.base)) := by
  have hlen_m : (sortLeads (leads.map (setScore e))).length = leads.length :=
    (sortLeads_perm _).length_eq.trans (List.length_map _ _)
  have hlen_ar : (assignRanks 1 (sortLeads (leads.map (setScore e)))).length
      = leads.length := (assignRanks_length _ _).trans hlen_m
  have hlen_out : (score_leads e leads).length = leads.length := by
    show ((assignRanks 1 (sortLeads (leads.map (setScore e)))).map (markHub e)).length = _
    rw [List.length_map]
    exact hlen_ar
  refine ⟨?_, ?_, ?_⟩
  · show ((assignRanks 1 (sortLeads (leads.map (setScore e)))).map (markHub e)).map
        (fun l => l.rank) = _
    rw [List.map_map]
    have hcomp : ((fun l : Lead => l.rank) ∘ markHub e) = fun l : Lead => l.rank :=
      funext (fun l => rank_markHub e l)
    rw [hcomp, assignRanks_map_rank, hlen_m]
  · intro i j hi hj hr
    have hi1 : i < (assignRanks 1 (sortLeads (leads.map (setScore e)))).length := by
      rw [hlen_ar]
      exact hlen_out ▸ hi
    have hj1 : j < (assignRanks 1 (sortLeads (leads.map (setScore e)))).length := by
      rw [hlen_ar]
      exact hlen_out ▸ hj
    have hi2 : i < (sortLeads (leads.map (setScore e))).length := by
      rw [hlen_m]
      exact hlen_out ▸ hi
    have hj2 : j < (sortLeads (leads.map (setScore e))).length := by
      rw [hlen_m]
      exact hlen_out ▸ hj
    have hgi : (score_leads e leads).get ⟨i, hi⟩
        = markHub e ((assignRanks 1 (sortLeads (leads.map (setScore e)))).get ⟨i, hi1⟩) :=
      get_of_map (markHub e) _ i hi hi1
    have hgj : (score_leads e leads).get ⟨j, hj⟩
        = markHub e ((assignRanks 1 (sortLeads (leads.map (setScore e)))).get ⟨j, hj1⟩) :=
      get_of_map (markHub e) _ j hj hj1
    have hri : ((score_leads e leads).get ⟨i, hi⟩).rank = 1 + i := by
      rw [hgi, rank_markHub, assignRanks_rank_get]
    have hrj : ((score_leads e leads).get ⟨j, hj⟩).rank = 1 + j := by
      rw [hgj, rank_markHub, assignRanks_rank_get]
    have hij : i < j := by
      rw [hri, hrj] at hr
      omega
    have hsi : ((score_leads e leads).get ⟨i, hi⟩).probability_score
        = ((sortLeads (leads.map (setScore e))).get ⟨i, hi2⟩).probability_score := by
      rw [hgi, score_markHub, assignRanks_score_get _ _ _ _ hi2]
    have hsj : ((score_leads e leads).get ⟨j, hj⟩).probability_score
        = ((sortLeads (leads.map (setScore e))).get ⟨j, hj2⟩).probability_score := by
      rw [hgj, score_markHub, assignRanks_score_get _ _ _ _ hj2]
    rw [hsi, hsj]
    have hp := sortLeads_sorted (leads.map (setScore e))
    rw [SortedDesc, List.pairwise_iff_getElem] at hp
    have := hp i j hi2 hj2 hij
    simpa [List.get_eq_getElem] using this
  · intro s
    show ((((assignRanks 1 (sortLeads (leads.map (setScore e)))).map (markHub e)).filter
        (fun l => l.probability_score == s)).map Lead.base) = _
    rw [markHub_filter, List.map_map]
    have hcomp : (Lead.base ∘ markHub e) = Lead.base := funext (fun l => base_markHub e l)
    rw [hcomp, assignRanks_filter_base, sortLeads_filter]

/-- C2 witness: the ranking, sorting and stability properties applied
to the concrete two-lead batch of the source's `__main__` block (in
input order Jane Doe then Dr. Smith, scored 8 and 100). -/
theorem C2_rank_sort_stability_witness :
    ((score_leads (ProbabilityEngine.init 2025) [janeDoeLead, drSmithLead]).map
        (fun l => l.rank) = [1, 2])
    ∧ ((score_leads (ProbabilityEngine.init 2025) [janeDoeLead, drSmithLead]).get
          ⟨1, by decide⟩).probability_score
        ≤ ((score_leads (ProbabilityEngine.init 2025) [janeDoeLead, drSmithLead]).get
          ⟨0, by decide⟩).probability_score
    ∧ ((((score_leads (ProbabilityEngine.init 2025) [janeDoeLead, drSmithLead]).filter
          (fun l => l.probability_score == 8)).map Lead.base)
        = ((([janeDoeLead, drSmithLead].map
              (setScore (ProbabilityEngine.init 2025))).filter
            (fun l => l.probability_score == 8)).map Lead.base)) := by
  obtain ⟨h1, h2, h3⟩ :=
    C2_rank_sort_stability (ProbabilityEngine.init 2025) [janeDoeLead, drSmithLead]
  exact ⟨h1.trans (by decide), h2 0 1 (by decide) (by decide) (by decide), h3 8⟩

/-- C9: `score_leads` never deletes or filters a lead — up to the
three written fields (`probability_score`, `rank`, `company_in_hub`),
the output records are a permutation of the input records, with every
other field, including unknown extra fields, unchanged — and the
batch size is preserved. -/
theorem C9_no_deletion_frame (e : ProbabilityEngine) (leads : List Lead) :
    ((score_leads e leads).map Lead.base).Perm (leads.map Lead.base)
    ∧ (score_leads e leads).length = leads.length := by
  constructor
  · show (((assignRanks 1 (sortLeads (leads.map (setScore e)))).map (markHub e)).map
        Lead.base).Perm _
    rw [List.map_map]
    have h1 : (Lead.base ∘ markHub e) = Lead.base := funext (fun l => base_markHub e l)
    rw [h1, assignRanks_map_base]
    refine ((sortLeads_perm (leads.map (setScore e))).map Lead.base).trans ?_
    rw [List.map_map]
    have h2 : (Lead.base ∘ setScore e) = Lead.base := funext (fun l => base_setScore e l)
    rw [h2]
  · show ((assignRanks 1 (sortLeads (leads.map (setScore e)))).map (markHub e)).length = _
    rw [List.length_map, assignRanks_length]
    exact (sortLeads_perm _).length_eq.trans (List.length_map _ _)

end LeadCrawler
